import Mathlib

/-!
Verification of the starbot relay bot (`star_bot/callbacks.py`,
`star_bot/main.py`): a shallow embedding of the reaction router,
the reaction handler with its delivery retry loop, and the startup
join loop, with theorems settling the specified properties.
-/

namespace StarBot

/-- Embeds the `m.relates_to` sub-object of an event payload.
Every field is optional, mirroring `dict.get` returning `None`. -/
structure RelatesTo where
  event_id : Option String
  rel_type : Option String
  key : Option String
deriving DecidableEq

/-- Embeds the `content` map of an event payload; the `m.relates_to`
sub-object may be absent. -/
structure EventContent where
  relates_to : Option RelatesTo
deriving DecidableEq

/-- Embeds `event.source`: the raw payload map, whose `content` entry may
be absent. -/
structure EventSource where
  content : Option EventContent
deriving DecidableEq

/-- Embeds `nio.MatrixRoom` as used by the callbacks: room id and display
name. -/
structure MatrixRoom where
  room_id : String
  display_name : String
deriving DecidableEq

/-- Embeds the reaction event passed to `Callbacks._reaction`: sender,
whether it is an undecrypted `MegolmEvent`, and the raw source payload. -/
structure ReactionEvent where
  sender : String
  isMegolm : Bool
  source : EventSource
deriving DecidableEq

/-- Embeds an inbound event delivered to `Callbacks.unknown`: its type tag,
sender, and raw source payload. -/
structure InboundEvent where
  type : String
  sender : String
  source : EventSource
deriving DecidableEq

/-- Embeds the event returned by `client.room_get_event(...).event`. -/
structure FetchedEvent where
  isMegolm : Bool
  sender : String
  body : String
  event_id : String
deriving DecidableEq

/-- Embeds the fields of the nio `AsyncClient` read by `_reaction` other
than the per-iteration joined-rooms view (see `IterEnv`). -/
structure Client where
  user : String
deriving DecidableEq

/-- Embeds the bot configuration fields read by the callbacks. -/
structure Config where
  star_room_id : String
deriving DecidableEq

/-- Embeds `event.source.get("content", {}).get("m.relates_to", {})`:
the relation sub-object, or nothing when `content` or `m.relates_to`
is absent (Python returns the default `{}` whose own `get` yields
`None`). -/
def relDict (src : EventSource) : Option RelatesTo :=
  src.content.bind (fun c => c.relates_to)

/-- Embeds `event.source.get("content", {}).get("m.relates_to", {}).get("key")`
from `_reaction`: total extraction of the annotation key. -/
def extractKey (src : EventSource) : Option String :=
  (relDict src).bind (fun r => r.key)

/-- Modelled from the spec: `make_pill` (from `star_bot.chat_functions`,
which is not under src/) renders a user identifier as a rich, clickable
mention ("pill"). -/
def make_pill (user_id : String) : String :=
  "<a href=\"https://matrix.to/#/" ++ user_id ++ "\">" ++ user_id ++ "</a>"

/-- Embeds the f-string body sent by `_reaction` to the star room:
anchor-tagged origin room link rendered as display name, em-dash, pill,
colon, target body, and trailing deep link with the `via=lant.uk`
routing hint. -/
def noticeText (room : MatrixRoom) (pill body event_id : String) : String :=
  "<a href=\"https://matrix.to/#/" ++ room.room_id ++ "\">" ++ room.display_name ++
    "</a>—" ++ pill ++ ": " ++ body ++ " [->](https://matrix.to/#/" ++ room.room_id ++
    "/" ++ event_id ++ "?via=lant.uk)"

/-- Outcome of one `send_text_to_room` call: success, or the
`LocalProtocolError` caught by `_reaction`. -/
inductive SendResult where
  | ok
  | localProtocolError
deriving DecidableEq

/-- Environment observed by one iteration of the delivery loop: whether
`config.star_room_id in self.client.rooms` holds at the membership check,
and what the send attempt of this iteration would return. Indexed per
iteration because `self.client.sync()` between iterations may change the
joined-rooms view. -/
structure IterEnv where
  joined : Bool
  send : SendResult
deriving DecidableEq

/-- Terminal state of the delivery loop: returned after a successful send,
broke out at the membership check, or fuel exhausted (models the loop
still running). -/
inductive DeliveryOutcome where
  | delivered
  | abandoned
  | fuelOut
deriving DecidableEq

/-- Embeds the `while True` delivery loop of `_reaction`: each iteration
first checks membership (`break` when not joined), then attempts the send
(`return` on success, resync and loop on `LocalProtocolError`). Returns
(send attempts made, resyncs performed, terminal state). `fuel` bounds the
unrolling of the unbounded loop; `i` is the iteration index into the
environment. -/
def deliveryLoop (env : Nat → IterEnv) : Nat → Nat → Nat × Nat × DeliveryOutcome
  | 0, _ => (0, 0, DeliveryOutcome.fuelOut)
  | fuel + 1, i =>
    if (env i).joined = false then
      (0, 0, DeliveryOutcome.abandoned)
    else
      match (env i).send with
      | SendResult.ok => (1, 0, DeliveryOutcome.delivered)
      | SendResult.localProtocolError =>
        let rest := deliveryLoop env fuel (i + 1)
        (rest.1 + 1, rest.2.1 + 1, rest.2.2)

/-- Result of one `_reaction` call: either a filter stage returned early
(no notice built), or the delivery loop ran on the built notice with the
recorded attempt counts and terminal state. -/
inductive HandlerResult where
  | filtered
  | delivery (notice : String) (sends resyncs : Nat) (outcome : DeliveryOutcome)
deriving DecidableEq

/-- Embeds `Callbacks._reaction`: the sequential filter chain (undecrypted
reaction, target fetch, undecrypted target, sender filter, star-room
filter, glyph filter) followed by the delivery loop. `fetch` embeds
`client.room_get_event` by room id and event id; `env` and `fuel`
parameterise the delivery loop. -/
def reaction (client : Client) (config : Config)
    (fetch : String → String → Except Unit FetchedEvent)
    (env : Nat → IterEnv) (fuel : Nat)
    (room : MatrixRoom) (event : ReactionEvent) (reacted_to_id : String) :
    HandlerResult :=
  if event.isMegolm then HandlerResult.filtered
  else
    match fetch room.room_id reacted_to_id with
    | Except.error _ => HandlerResult.filtered
    | Except.ok reacted_to_event =>
      if reacted_to_event.isMegolm then HandlerResult.filtered
      else if event.sender ≠ client.user then HandlerResult.filtered
      else if room.room_id = config.star_room_id then HandlerResult.filtered
      else if extractKey event.source ≠ some "⭐️" then HandlerResult.filtered
      else
        let pill := make_pill reacted_to_event.sender
        let r := deliveryLoop env fuel 0
        HandlerResult.delivery
          (noticeText room pill reacted_to_event.body reacted_to_event.event_id)
          r.1 r.2.1 r.2.2

/-- Number of notices actually delivered to the star room by a handler
run: one exactly when the delivery loop terminated with a successful
send. -/
def sentNotices : HandlerResult → Nat
  | HandlerResult.delivery _ _ _ DeliveryOutcome.delivered => 1
  | _ => 0

/-- Embeds Python truthiness of an optional string (`if reacted_to:`):
present and non-empty. -/
def truthy : Option String → Bool
  | none => false
  | some s => s ≠ ""

/-- Embeds `Callbacks.unknown`, the event router: on an `m.reaction` typed
event, extract the relation sub-object; dispatch to the reaction handler
exactly when the target event id is truthy and the relation type equals
`m.annotation`. Returns the dispatched target event id, or `none` when no
dispatch happens. -/
def unknown (_room : MatrixRoom) (event : InboundEvent) : Option String :=
  if event.type = "m.reaction" then
    let relation_dict := relDict event.source
    let reacted_to := relation_dict.bind (fun r => r.event_id)
    if truthy reacted_to ∧ relation_dict.bind (fun r => r.rel_type) = some "m.annotation" then
      reacted_to
    else none
  else none

/-- Result of one `client.join` call in the startup loop. -/
inductive JoinResult where
  | ok
  | joinError
deriving DecidableEq

/-- State accumulated by the startup join loop: the log of (attempt index,
result) pairs whose result logging completed, and whether an exception was
raised (aborting the loop and startup). -/
structure StartupState where
  attemptLog : List (Nat × JoinResult)
  raised : Bool
deriving DecidableEq

/-- One iteration of the join loop. On success, `logger.info(result)` logs
the result. On `JoinError`, the `logger.error` call builds the message
f-string referencing the name `room`, which is unbound in `main`, so the
iteration raises an uncaught `NameError` before the result is logged;
the exception propagates, so once raised no further iteration runs. -/
def joinStep (joins : Nat → JoinResult) (i : Nat) (st : StartupState) :
    StartupState :=
  if st.raised then st
  else
    match joins i with
    | JoinResult.ok => ⟨st.attemptLog ++ [(i, JoinResult.ok)], false⟩
    | JoinResult.joinError => ⟨st.attemptLog, true⟩

/-- Embeds the `for attempt in range(3)` join loop of `main`: skipped
entirely when the star room is already joined; otherwise it iterates the
three attempts via `joinStep`, each calling `client.join`; a `JoinError`
result raises (unbound `room` in the error f-string) and aborts the loop
and startup, while successes are logged and never break the loop. -/
def joinLoop (alreadyJoined : Bool) (joins : Nat → JoinResult) : StartupState :=
  if alreadyJoined then ⟨[], false⟩
  else
    (List.range 3).foldl (fun st i => joinStep joins i st) ⟨[], false⟩

/-- Embeds the trailing deep link of the outbound notice:
`[->](https://matrix.to/#/<room_id>/<event_id>?via=lant.uk)`. -/
def formatDeepLink (room_id event_id : String) : String :=
  "[->](https://matrix.to/#/" ++ room_id ++ "/" ++ event_id ++ "?via=lant.uk)"

/-- Strips an exact leading character sequence, or fails. -/
def dropPre : List Char → List Char → Option (List Char)
  | [], s => some s
  | _ :: _, [] => none
  | p :: ps, c :: cs => if p = c then dropPre ps cs else none

/-- Strips an exact trailing character sequence, or fails. -/
def dropSuf (q s : List Char) : Option (List Char) :=
  (dropPre q.reverse s.reverse).map List.reverse

/-- Splits at the first occurrence of a separator character, or fails when
the separator is absent. -/
def splitAtChar (sep : Char) : List Char → Option (List Char × List Char)
  | [] => none
  | c :: cs =>
    if c = sep then some ([], cs)
    else
      match splitAtChar sep cs with
      | some (a, b) => some (c :: a, b)
      | none => none

/-- Modelled from the spec: the inverse direction of the deep-link format
(no parser exists in the repository). Strips the fixed link head and the
fixed `?via=lant.uk)` tail, then splits the remainder at the room/event
separator, rejecting an event id that still contains a separator. -/
def parseDeepLink (s : String) : Option (String × String) :=
  match dropPre "[->](https://matrix.to/#/".data s.data with
  | none => none
  | some rest =>
    match dropSuf "?via=lant.uk)".data rest with
    | none => none
    | some mid =>
      match splitAtChar '/' mid with
      | none => none
      | some (r, e) => if ('/' : Char) ∈ e then none else some (⟨r⟩, ⟨e⟩)

/-- String containment: `pat` occurs contiguously inside `s`. -/
def containsStr (s pat : String) : Prop :=
  ∃ a b : String, s = a ++ pat ++ b

/-- A handler run on a reaction whose extracted annotation key is not the
star glyph delivers no notice: the glyph filter (or an earlier filter)
returns before the delivery loop. -/
theorem sentNotices_zero_of_key (client : Client) (config : Config)
    (fetch : String → String → Except Unit FetchedEvent)
    (env : Nat → IterEnv) (fuel : Nat)
    (room : MatrixRoom) (event : ReactionEvent) (reacted_to_id : String)
    (hk : extractKey event.source ≠ some "⭐️") :
    sentNotices (reaction client config fetch env fuel room event reacted_to_id) = 0 := by
  unfold reaction
  repeat' split
  all_goals first | rfl | simp_all

/-- A handler run on a reaction whose sender is not the bot's own user
delivers no notice: the sender filter (or an earlier filter) returns
before the delivery loop. -/
theorem sentNotices_zero_of_sender (client : Client) (config : Config)
    (fetch : String → String → Except Unit FetchedEvent)
    (env : Nat → IterEnv) (fuel : Nat)
    (room : MatrixRoom) (event : ReactionEvent) (reacted_to_id : String)
    (hs : event.sender ≠ client.user) :
    sentNotices (reaction client config fetch env fuel room event reacted_to_id) = 0 := by
  unfold reaction
  repeat' split
  all_goals first | rfl | simp_all

/-- C2: if the first send attempt raises a local-protocol error and,
after one resync, the second attempt succeeds, the delivery loop performs
exactly two send attempts and exactly one resync and terminates delivered
(one notice, no duplicate); and after the resync the loop re-enters the
membership check before sending again, so a membership gap at the second
iteration abandons the delivery with no second send. -/
theorem c2_resync_single_retry (env env2 : Nat → IterEnv) (fuel : Nat)
    (h0 : env 0 = ⟨true, SendResult.localProtocolError⟩)
    (h1 : env 1 = ⟨true, SendResult.ok⟩)
    (g0 : env2 0 = ⟨true, SendResult.localProtocolError⟩)
    (g1 : (env2 1).joined = false) :
    deliveryLoop env (fuel + 1 + 1) 0 = (2, 1, DeliveryOutcome.delivered) ∧
    deliveryLoop env2 (fuel + 1 + 1) 0 = (1, 1, DeliveryOutcome.abandoned) := by
  constructor
  · simp [deliveryLoop, h0, h1]
  · simp [deliveryLoop, g0, g1]

/-- Witness for C2 at a concrete environment: first attempt fails with a
local-protocol error, second succeeds (resp. membership lost). -/
theorem c2_resync_single_retry_witness :
    ((fun i => if i = 0 then IterEnv.mk true SendResult.localProtocolError
               else IterEnv.mk true SendResult.ok) 0 =
        ⟨true, SendResult.localProtocolError⟩ ∧
     (fun i => if i = 0 then IterEnv.mk true SendResult.localProtocolError
               else IterEnv.mk true SendResult.ok) 1 = ⟨true, SendResult.ok⟩ ∧
     (fun i => if i = 0 then IterEnv.mk true SendResult.localProtocolError
               else IterEnv.mk false SendResult.ok) 0 =
        ⟨true, SendResult.localProtocolError⟩ ∧
     ((fun i => if i = 0 then IterEnv.mk true SendResult.localProtocolError
               else IterEnv.mk false SendResult.ok) 1).joined = false) ∧
    (deliveryLoop
        (fun i => if i = 0 then IterEnv.mk true SendResult.localProtocolError
                  else IterEnv.mk true SendResult.ok) (0 + 1 + 1) 0 =
      (2, 1, DeliveryOutcome.delivered) ∧
     deliveryLoop
        (fun i => if i = 0 then IterEnv.mk true SendResult.localProtocolError
                  else IterEnv.mk false SendResult.ok) (0 + 1 + 1) 0 =
      (1, 1, DeliveryOutcome.abandoned)) :=
  ⟨⟨rfl, rfl, rfl, rfl⟩,
   c2_resync_single_retry _ _ 0 rfl rfl rfl rfl⟩

/-- When every join attempt succeeds, the loop performs and logs all three
attempts and raises nothing — a successful join never breaks the loop. -/
theorem joinLoop_all_ok (joins : Nat → JoinResult)
    (h0 : joins 0 = JoinResult.ok) (h1 : joins 1 = JoinResult.ok)
    (h2 : joins 2 = JoinResult.ok) :
    joinLoop false joins =
      ⟨[(0, JoinResult.ok), (1, JoinResult.ok), (2, JoinResult.ok)], false⟩ := by
  simp [joinLoop, joinStep, List.range_succ, h0, h1, h2]

/-- C3: evaluated at a failed join attempt, the code does not merely log
and continue — the `JoinError` branch raises (unbound `room` in the error
message f-string) before any result is logged, aborting the join loop and
startup, so the claimed behavior is false of the code as written. -/
theorem c3_startup_join_error_raises :
    joinLoop false (fun _ => JoinResult.joinError) = ⟨[], true⟩ ∧
    (joinLoop false (fun _ => JoinResult.joinError)).raised = true ∧
    (joinLoop false (fun _ => JoinResult.joinError)).attemptLog = [] :=
  ⟨rfl, rfl, rfl⟩

/-- C4: a reaction whose annotation key is not exactly the star glyph
produces no notice. -/
theorem c4_glyph_filter (client : Client) (config : Config)
    (fetch : String → String → Except Unit FetchedEvent)
    (env : Nat → IterEnv) (fuel : Nat)
    (room : MatrixRoom) (event : ReactionEvent) (reacted_to_id : String)
    (hk : extractKey event.source ≠ some "⭐️") :
    sentNotices (reaction client config fetch env fuel room event reacted_to_id) = 0 :=
  sentNotices_zero_of_key client config fetch env fuel room event reacted_to_id hk

/-- Witness for C4 at a concrete reaction carrying the key "x". -/
theorem c4_glyph_filter_witness :
    (extractKey ⟨some ⟨some ⟨some "$t", some "m.annotation", some "x"⟩⟩⟩ ≠ some "⭐️") ∧
    sentNotices
      (reaction ⟨"@bot:x"⟩ ⟨"!star:x"⟩
        (fun _ _ => Except.ok ⟨false, "@a:x", "hi", "$e"⟩)
        (fun _ => ⟨true, SendResult.ok⟩) 1
        ⟨"!r:x", "R"⟩
        ⟨"@bot:x", false, ⟨some ⟨some ⟨some "$t", some "m.annotation", some "x"⟩⟩⟩⟩
        "$t") = 0 :=
  ⟨by decide,
   c4_glyph_filter ⟨"@bot:x"⟩ ⟨"!star:x"⟩
     (fun _ _ => Except.ok ⟨false, "@a:x", "hi", "$e"⟩)
     (fun _ => ⟨true, SendResult.ok⟩) 1
     ⟨"!r:x", "R"⟩
     ⟨"@bot:x", false, ⟨some ⟨some ⟨some "$t", some "m.annotation", some "x"⟩⟩⟩⟩
     "$t" (by decide)⟩

/-- C5: a reaction whose sender is not the bot's own identity produces no
notice, and processing it any number of times still produces zero notices
in total. -/
theorem c5_sender_filter (client : Client) (config : Config)
    (fetch : String → String → Except Unit FetchedEvent)
    (env : Nat → IterEnv) (fuel : Nat)
    (room : MatrixRoom) (event : ReactionEvent) (reacted_to_id : String)
    (hs : event.sender ≠ client.user) :
    sentNotices (reaction client config fetch env fuel room event reacted_to_id) = 0 ∧
    ∀ n : Nat,
      (List.replicate n
        (sentNotices (reaction client config fetch env fuel room event reacted_to_id))).sum = 0 := by
  have h := sentNotices_zero_of_sender client config fetch env fuel room event reacted_to_id hs
  refine ⟨h, fun n => ?_⟩
  rw [h]
  simp

/-- Witness for C5 at a concrete reaction from another user. -/
theorem c5_sender_filter_witness :
    (("@alice:x" : String) ≠ "@bot:x") ∧
    (sentNotices
      (reaction ⟨"@bot:x"⟩ ⟨"!star:x"⟩
        (fun _ _ => Except.ok ⟨false, "@a:x", "hi", "$e"⟩)
        (fun _ => ⟨true, SendResult.ok⟩) 1
        ⟨"!r:x", "R"⟩
        ⟨"@alice:x", false, ⟨some ⟨some ⟨some "$t", some "m.annotation", some "⭐️"⟩⟩⟩⟩
        "$t") = 0 ∧
     ∀ n : Nat,
      (List.replicate n
        (sentNotices
          (reaction ⟨"@bot:x"⟩ ⟨"!star:x"⟩
            (fun _ _ => Except.ok ⟨false, "@a:x", "hi", "$e"⟩)
            (fun _ => ⟨true, SendResult.ok⟩) 1
            ⟨"!r:x", "R"⟩
            ⟨"@alice:x", false, ⟨some ⟨some ⟨some "$t", some "m.annotation", some "⭐️"⟩⟩⟩⟩
            "$t"))).sum = 0) :=
  ⟨by decide,
   c5_sender_filter ⟨"@bot:x"⟩ ⟨"!star:x"⟩
     (fun _ _ => Except.ok ⟨false, "@a:x", "hi", "$e"⟩)
     (fun _ => ⟨true, SendResult.ok⟩) 1
     ⟨"!r:x", "R"⟩
     ⟨"@alice:x", false, ⟨some ⟨some ⟨some "$t", some "m.annotation", some "⭐️"⟩⟩⟩⟩
     "$t" (by decide)⟩

/-- C6: if at the membership check of an iteration the star room is not in
the joined-rooms view, the delivery loop makes zero send attempts and zero
resyncs from that point and terminates abandoned. -/
theorem c6_membership_gate (env : Nat → IterEnv) (fuel i : Nat)
    (h : (env i).joined = false) :
    deliveryLoop env (fuel + 1) i = (0, 0, DeliveryOutcome.abandoned) := by
  simp [deliveryLoop, h]

/-- Witness for C6 at a concrete environment that is never joined. -/
theorem c6_membership_gate_witness :
    ((fun _ => IterEnv.mk false SendResult.ok) 0).joined = false ∧
    deliveryLoop (fun _ => IterEnv.mk false SendResult.ok) (0 + 1) 0 =
      (0, 0, DeliveryOutcome.abandoned) :=
  ⟨rfl, c6_membership_gate _ 0 0 rfl⟩

/-- C7: on an `m.reaction` event whose relation metadata lacks a target
event id, or whose relation type is not `m.annotation`, the router
dispatches nothing to the reaction handler. -/
theorem c7_router_no_dispatch (room : MatrixRoom) (event : InboundEvent)
    (ht : event.type = "m.reaction")
    (h : (relDict event.source).bind (fun r => r.event_id) = none ∨
         (relDict event.source).bind (fun r => r.rel_type) ≠ some "m.annotation") :
    unknown room event = none := by
  rcases h with h | h <;> simp [unknown, ht, truthy, h]

/-- Witness for C7 at a concrete reaction event with no relation type. -/
theorem c7_router_no_dispatch_witness :
    ((InboundEvent.mk "m.reaction" "@a:x"
        ⟨some ⟨some ⟨some "$t", none, some "⭐️"⟩⟩⟩).type = "m.reaction" ∧
     ((relDict (InboundEvent.mk "m.reaction" "@a:x"
        ⟨some ⟨some ⟨some "$t", none, some "⭐️"⟩⟩⟩).source).bind (fun r => r.event_id) = none ∨
      (relDict (InboundEvent.mk "m.reaction" "@a:x"
        ⟨some ⟨some ⟨some "$t", none, some "⭐️"⟩⟩⟩).source).bind (fun r => r.rel_type) ≠
        some "m.annotation")) ∧
    unknown ⟨"!r:x", "R"⟩
      (InboundEvent.mk "m.reaction" "@a:x"
        ⟨some ⟨some ⟨some "$t", none, some "⭐️"⟩⟩⟩) = none :=
  ⟨⟨rfl, Or.inr (by decide)⟩,
   c7_router_no_dispatch ⟨"!r:x", "R"⟩ _ rfl (Or.inr (by decide))⟩

/-- C9: when the payload lacks the content map, the relation sub-object, or
the key field, the glyph extraction totally yields a missing value, and the
handler returns without delivering a notice (and, being a total function,
without any error). -/
theorem c9_missing_fields_safe (client : Client) (config : Config)
    (fetch : String → String → Except Unit FetchedEvent)
    (env : Nat → IterEnv) (fuel : Nat)
    (room : MatrixRoom) (event : ReactionEvent) (reacted_to_id : String)
    (h : event.source.content = none ∨
         (∃ c, event.source.content = some c ∧ c.relates_to = none) ∨
         (∃ c r, event.source.content = some c ∧ c.relates_to = some r ∧ r.key = none)) :
    extractKey event.source = none ∧
    sentNotices (reaction client config fetch env fuel room event reacted_to_id) = 0 := by
  have hk : extractKey event.source = none := by
    rcases h with h | ⟨c, hc, hrel⟩ | ⟨c, r, hc, hrel, hkey⟩ <;>
      simp [extractKey, relDict, *]
  exact ⟨hk,
    sentNotices_zero_of_key client config fetch env fuel room event reacted_to_id
      (by simp [hk])⟩

/-- Witness for C9 at a concrete reaction event with no content map. -/
theorem c9_missing_fields_safe_witness :
    ((EventSource.mk none).content = none ∨
     (∃ c, (EventSource.mk none).content = some c ∧ c.relates_to = none) ∨
     (∃ c r, (EventSource.mk none).content = some c ∧ c.relates_to = some r ∧
        r.key = none)) ∧
    (extractKey ⟨none⟩ = none ∧
     sentNotices
      (reaction ⟨"@bot:x"⟩ ⟨"!star:x"⟩
        (fun _ _ => Except.ok ⟨false, "@a:x", "hi", "$e"⟩)
        (fun _ => ⟨true, SendResult.ok⟩) 1
        ⟨"!r:x", "R"⟩ ⟨"@bot:x", false, ⟨none⟩⟩ "$t") = 0) :=
  ⟨Or.inl rfl,
   c9_missing_fields_safe ⟨"@bot:x"⟩ ⟨"!star:x"⟩
     (fun _ _ => Except.ok ⟨false, "@a:x", "hi", "$e"⟩)
     (fun _ => ⟨true, SendResult.ok⟩) 1
     ⟨"!r:x", "R"⟩ ⟨"@bot:x", false, ⟨none⟩⟩ "$t" (Or.inl rfl)⟩

/-- C10: evaluated at a run whose first attempt succeeds and whose second
returns a `JoinError`, the code does not perform all three attempts: the
raise during attempt 1's error logging (unbound `room`) aborts the loop,
attempt 2 is never made, and only attempt 0 was logged — so the claimed
behavior is false of the code as written. -/
theorem c10_failing_attempt_aborts_loop :
    joinLoop false
        (fun i => if i = 0 then JoinResult.ok else JoinResult.joinError) =
      ⟨[(0, JoinResult.ok)], true⟩ ∧
    (joinLoop false
        (fun i => if i = 0 then JoinResult.ok
                  else JoinResult.joinError)).attemptLog.length = 1 :=
  ⟨rfl, rfl⟩

/-- Stripping an exact leading sequence from its own extension succeeds. -/
theorem dropPre_append (p s : List Char) : dropPre p (p ++ s) = some s := by
  induction p with
  | nil => rfl
  | cons c cs ih => simp [dropPre, ih]

/-- Stripping an exact trailing sequence from its own extension succeeds. -/
theorem dropSuf_append (q s : List Char) : dropSuf q (s ++ q) = some s := by
  simp [dropSuf, List.reverse_append, dropPre_append]

/-- Splitting at the separator recovers the two halves when the left half
contains no separator. -/
theorem splitAtChar_append (sep : Char) (a b : List Char) (h : sep ∉ a) :
    splitAtChar sep (a ++ sep :: b) = some (a, b) := by
  induction a with
  | nil => simp [splitAtChar]
  | cons c cs ih =>
    have hc : c ≠ sep := fun e => h (e ▸ List.mem_cons_self c cs)
    simp [splitAtChar, hc, ih (fun m => h (List.mem_cons_of_mem c m))]

/-- C8: formatting the trailing deep link from a room id and event id and
then parsing the produced link recovers both ids unchanged, for ids free
of the link-delimiter character. -/
theorem c8_deep_link_roundtrip (r e : String)
    (hr : ('/' : Char) ∉ r.data) (he : ('/' : Char) ∉ e.data) :
    parseDeepLink (formatDeepLink r e) = some (r, e) := by
  obtain ⟨rl⟩ := r
  obtain ⟨el⟩ := e
  have h1 : (formatDeepLink ⟨rl⟩ ⟨el⟩).data =
      "[->](https://matrix.to/#/".data ++
        ((rl ++ '/' :: el) ++ "?via=lant.uk)".data) := by
    show "[->](https://matrix.to/#/".data ++ rl ++ "/".data ++ el ++
        "?via=lant.uk)".data = _
    simp [List.append_assoc]
  simp only [parseDeepLink, h1, dropPre_append, dropSuf_append,
    splitAtChar_append '/' rl el hr]
  simp [he]

/-- Witness for C8 at a concrete room id and event id. -/
theorem c8_deep_link_roundtrip_witness :
    (('/' : Char) ∉ ("!room:x" : String).data ∧
     ('/' : Char) ∉ ("$evt" : String).data) ∧
    parseDeepLink (formatDeepLink "!room:x" "$evt") = some ("!room:x", "$evt") :=
  ⟨⟨by decide, by decide⟩, c8_deep_link_roundtrip "!room:x" "$evt" (by decide) (by decide)⟩

/-- C1: a star reaction by the bot identity, in a non-destination room, on
a successfully fetched and decrypted target, with the destination room
joined and the send succeeding on the first attempt, yields exactly one
outbound notice; that notice contains the origin room's display name, the
pill mention of the target's sender, the target's body verbatim, and the
deep link built from the origin room id and the target event id. -/
theorem c1_star_relay_notice (client : Client) (config : Config)
    (fetch : String → String → Except Unit FetchedEvent)
    (env : Nat → IterEnv) (fuel : Nat)
    (room : MatrixRoom) (event : ReactionEvent) (reacted_to_id : String)
    (tgt : FetchedEvent)
    (hm : event.isMegolm = false)
    (hf : fetch room.room_id reacted_to_id = Except.ok tgt)
    (htm : tgt.isMegolm = false)
    (hs : event.sender = client.user)
    (hroom : room.room_id ≠ config.star_room_id)
    (hk : extractKey event.source = some "⭐️")
    (henv : env 0 = ⟨true, SendResult.ok⟩) :
    ∃ n : String,
      reaction client config fetch env (fuel + 1) room event reacted_to_id =
        HandlerResult.delivery n 1 0 DeliveryOutcome.delivered ∧
      sentNotices (reaction client config fetch env (fuel + 1) room event reacted_to_id) = 1 ∧
      containsStr n room.display_name ∧
      containsStr n (make_pill tgt.sender) ∧
      containsStr n tgt.body ∧
      containsStr n (formatDeepLink room.room_id tgt.event_id) := by
  have hloop : deliveryLoop env (fuel + 1) 0 = (1, 0, DeliveryOutcome.delivered) := by
    simp [deliveryLoop, henv]
  have hred : reaction client config fetch env (fuel + 1) room event reacted_to_id =
      HandlerResult.delivery
        (noticeText room (make_pill tgt.sender) tgt.body tgt.event_id)
        1 0 DeliveryOutcome.delivered := by
    simp [reaction, hm, hf, htm, hs, hroom, hk, hloop]
  refine ⟨noticeText room (make_pill tgt.sender) tgt.body tgt.event_id,
    hred, by rw [hred]; rfl, ?_, ?_, ?_, ?_⟩
  · exact ⟨"<a href=\"https://matrix.to/#/" ++ room.room_id ++ "\">",
      "</a>—" ++ make_pill tgt.sender ++ ": " ++ tgt.body ++
        " [->](https://matrix.to/#/" ++ room.room_id ++ "/" ++ tgt.event_id ++
        "?via=lant.uk)",
      by simp [noticeText, String.append_assoc]⟩
  · exact ⟨"<a href=\"https://matrix.to/#/" ++ room.room_id ++ "\">" ++
        room.display_name ++ "</a>—",
      ": " ++ tgt.body ++ " [->](https://matrix.to/#/" ++ room.room_id ++ "/" ++
        tgt.event_id ++ "?via=lant.uk)",
      by simp [noticeText, String.append_assoc,
        (show ("<a href=\"https://matrix.to/#/" : String) ++ room.room_id ++ "\">" ++
            room.display_name ++ "</a>—" =
          "<a href=\"https://matrix.to/#/" ++ room.room_id ++ "\">" ++
            room.display_name ++ "</a>—" from rfl)]⟩
  · exact ⟨"<a href=\"https://matrix.to/#/" ++ room.room_id ++ "\">" ++
        room.display_name ++ "</a>—" ++ make_pill tgt.sender ++ ": ",
      " [->](https://matrix.to/#/" ++ room.room_id ++ "/" ++ tgt.event_id ++
        "?via=lant.uk)",
      by simp [noticeText, String.append_assoc]⟩
  · exact ⟨"<a href=\"https://matrix.to/#/" ++ room.room_id ++ "\">" ++
        room.display_name ++ "</a>—" ++ make_pill tgt.sender ++ ": " ++
        tgt.body ++ " ",
      "",
      by
        simp only [noticeText, formatDeepLink, String.append_empty,
          String.append_assoc]
        rfl⟩

/-- Witness for C1 at a concrete star reaction with a joined destination
and a first-attempt successful send. -/
theorem c1_star_relay_notice_witness :
    ((ReactionEvent.mk "@bot:x" false
        ⟨some ⟨some ⟨some "$t", some "m.annotation", some "⭐️"⟩⟩⟩).isMegolm = false ∧
     (fun _ _ => (Except.ok ⟨false, "@a:x", "hi", "$e"⟩ :
        Except Unit FetchedEvent)) ("!r:x" : String) ("$t" : String) =
       Except.ok ⟨false, "@a:x", "hi", "$e"⟩ ∧
     (FetchedEvent.mk false "@a:x" "hi" "$e").isMegolm = false ∧
     (ReactionEvent.mk "@bot:x" false
        ⟨some ⟨some ⟨some "$t", some "m.annotation", some "⭐️"⟩⟩⟩).sender =
       (Client.mk "@bot:x").user ∧
     (MatrixRoom.mk "!r:x" "R").room_id ≠ (Config.mk "!star:x").star_room_id ∧
     extractKey ⟨some ⟨some ⟨some "$t", some "m.annotation", some "⭐️"⟩⟩⟩ =
       some "⭐️" ∧
     (fun _ => IterEnv.mk true SendResult.ok) 0 = ⟨true, SendResult.ok⟩) ∧
    (∃ n : String,
      reaction ⟨"@bot:x"⟩ ⟨"!star:x"⟩
          (fun _ _ => Except.ok ⟨false, "@a:x", "hi", "$e"⟩)
          (fun _ => IterEnv.mk true SendResult.ok) (0 + 1)
          ⟨"!r:x", "R"⟩
          ⟨"@bot:x", false, ⟨some ⟨some ⟨some "$t", some "m.annotation", some "⭐️"⟩⟩⟩⟩
          "$t" =
        HandlerResult.delivery n 1 0 DeliveryOutcome.delivered ∧
      sentNotices
        (reaction ⟨"@bot:x"⟩ ⟨"!star:x"⟩
          (fun _ _ => Except.ok ⟨false, "@a:x", "hi", "$e"⟩)
          (fun _ => IterEnv.mk true SendResult.ok) (0 + 1)
          ⟨"!r:x", "R"⟩
          ⟨"@bot:x", false, ⟨some ⟨some ⟨some "$t", some "m.annotation", some "⭐️"⟩⟩⟩⟩
          "$t") = 1 ∧
      containsStr n (MatrixRoom.mk "!r:x" "R").display_name ∧
      containsStr n (make_pill "@a:x") ∧
      containsStr n "hi" ∧
      containsStr n (formatDeepLink "!r:x" "$e")) :=
  ⟨⟨rfl, rfl, rfl, rfl, by decide, by decide, rfl⟩,
   c1_star_relay_notice ⟨"@bot:x"⟩ ⟨"!star:x"⟩
     (fun _ _ => Except.ok ⟨false, "@a:x", "hi", "$e"⟩)
     (fun _ => IterEnv.mk true SendResult.ok) 0
     ⟨"!r:x", "R"⟩
     ⟨"@bot:x", false, ⟨some ⟨some ⟨some "$t", some "m.annotation", some "⭐️"⟩⟩⟩⟩
     "$t" ⟨false, "@a:x", "hi", "$e"⟩
     rfl rfl rfl rfl (by decide) (by decide) rfl⟩

end StarBot
